import Mathlib

/-!
Verification of the conversational project-intake core of `ai-ideago`
(`llm_chain.py` and the talent-normalization part of `app.py`).

The embedding models:
* JSON values (`Json`) and Python `dict` operations on string-keyed records;
* `json.loads` as a strict JSON parser (`json_loads`);
* `ProjectChatChain._extract_json_from_text` (`extract_json_from_text`);
* `ProjectChatChain._validate_project_data` (`validate_project_data`);
* `ProjectChatChain.process_message` (`process_message`), with the
  generation backend and the LangChain `JsonOutputParser` as parameters;
* the talent-array fixup performed by the `/chat` handler in `app.py`
  (`app_fix_talents`).
-/

set_option maxHeartbeats 1000000
set_option maxRecDepth 100000

/-- JSON values as produced by Python's `json.loads`.  Numeric literals are
kept as their source lexeme (the claims under verification never compare
numeric values, only record structure).  Objects are association lists in
Python-dict insertion order. -/
inductive Json where
  | null : Json
  | bool : Bool → Json
  | num : String → Json
  | str : String → Json
  | arr : List Json → Json
  | obj : List (String × Json) → Json
deriving Repr, Inhabited

/-- The character code of an opening curly brace. -/
def lbrace : Char := Char.ofNat 123

/-- The character code of a closing curly brace. -/
def rbrace : Char := Char.ofNat 125

/-- Python dict membership test (`k in d`) on a string-keyed record. -/
def pyContains (kvs : List (String × Json)) (k : String) : Bool :=
  kvs.any (fun p => p.1 == k)

/-- Python dict lookup (`d[k]` / `d.get(k)`). -/
def pyGet (kvs : List (String × Json)) (k : String) : Option Json :=
  (kvs.find? (fun p => p.1 == k)).map (fun p => p.2)

/-- Python dict assignment `d[k] = v`: updates the value in place when the
key exists (keys are unique in a dict), otherwise appends at the end. -/
def pySet : List (String × Json) → String → Json → List (String × Json)
  | [], k, v => [(k, v)]
  | (k', v') :: rest, k, v =>
    if k' == k then (k, v) :: rest else (k', v') :: pySet rest k v

/-- Python dict deletion `del d[k]` (keys are unique, so filtering is
equivalent). -/
def pyDel (kvs : List (String × Json)) (k : String) : List (String × Json) :=
  kvs.filter (fun p => !(p.1 == k))

/-- Whether a JSON value is a Python `list` (`isinstance(x, list)`). -/
def isArr : Json → Bool
  | .arr _ => true
  | _ => false

/-- Whether a numeric literal denotes the value zero (Python truthiness of a
number).  The constants `NaN`, `Infinity`, `-Infinity` are truthy. -/
def numIsZero (lex : String) : Bool :=
  if lex == "NaN" || lex == "Infinity" || lex == "-Infinity" then false
  else (lex.toList.takeWhile (fun c => !(c == 'e') && !(c == 'E'))).all
    (fun c => !c.isDigit || c == '0')

/-- Python truthiness (`bool(x)`) of a JSON value. -/
def pyFalsy : Json → Bool
  | .null => true
  | .bool b => !b
  | .num lex => numIsZero lex
  | .str s => s.toList.isEmpty
  | .arr xs => xs.isEmpty
  | .obj kvs => kvs.isEmpty

/-- Skip the JSON whitespace characters, exactly the set Python's `json`
module skips (space, tab, newline, carriage return). -/
def skipWs : List Char → List Char
  | [] => []
  | c :: cs =>
    if c == ' ' || c == '\t' || c == '\n' || c == '\r' then skipWs cs
    else c :: cs

/-- Value of a hexadecimal digit character. -/
def hexVal (c : Char) : Option Nat :=
  if c.isDigit then some (c.toNat - 48)
  else if 'a' ≤ c ∧ c ≤ 'f' then some (c.toNat - 87)
  else if 'A' ≤ c ∧ c ≤ 'F' then some (c.toNat - 55)
  else none

/-- Parse exactly four hexadecimal digits (the payload of a `\u` escape). -/
def parseHex4 : List Char → Option (Nat × List Char)
  | a :: b :: c :: d :: rest =>
    match hexVal a, hexVal b, hexVal c, hexVal d with
    | some x, some y, some z, some w => some (((x * 16 + y) * 16 + z) * 16 + w, rest)
    | _, _, _, _ => none
  | _ => none

/-- Parse the body of a JSON string literal after the opening quote, in
Python's strict mode: raw control characters are rejected, the standard
escapes and `\u` (with surrogate-pair combination) are decoded. -/
def parseStrBody : Nat → List Char → Option (String × List Char)
  | 0, _ => none
  | _, [] => none
  | f + 1, c :: cs =>
    let push (ch : Char) (rest : List Char) : Option (String × List Char) :=
      (parseStrBody f rest).map (fun p => (String.mk (ch :: p.1.toList), p.2))
    if c == '"' then some ("", cs)
    else if c == '\\' then
      match cs with
      | [] => none
      | e :: cs2 =>
        if e == '"' then push '"' cs2
        else if e == '\\' then push '\\' cs2
        else if e == '/' then push '/' cs2
        else if e == 'b' then push (Char.ofNat 8) cs2
        else if e == 'f' then push (Char.ofNat 12) cs2
        else if e == 'n' then push '\n' cs2
        else if e == 'r' then push '\r' cs2
        else if e == 't' then push '\t' cs2
        else if e == 'u' then
          match parseHex4 cs2 with
          | none => none
          | some (n, cs3) =>
            if 0xD800 ≤ n ∧ n ≤ 0xDBFF then
              match cs3 with
              | '\\' :: 'u' :: cs4 =>
                match parseHex4 cs4 with
                | some (m, cs5) =>
                  if 0xDC00 ≤ m ∧ m ≤ 0xDFFF then
                    push (Char.ofNat (0x10000 + (n - 0xD800) * 0x400 + (m - 0xDC00))) cs5
                  else push (Char.ofNat n) cs3
                | none => push (Char.ofNat n) cs3
              | _ => push (Char.ofNat n) cs3
            else push (Char.ofNat n) cs3
        else none
    else if c.toNat < 32 then none
    else push c cs

/-- Longest digit prefix of a character list together with the remainder. -/
def digitSpan (cs : List Char) : List Char × List Char :=
  (cs.takeWhile Char.isDigit, cs.dropWhile Char.isDigit)

/-- Lex a JSON numeric literal at the head of the input, following Python's
`NUMBER_RE` (`-?(0|[1-9][0-9]*)(\.[0-9]+)?([eE][-+]?[0-9]+)?`) plus the
constants `NaN`, `Infinity` and `-Infinity` that `json.loads` accepts by
default.  Returns the lexeme and the remainder. -/
def parseNum (cs : List Char) : Option (String × List Char) :=
  if ("NaN".toList).isPrefixOf cs then some ("NaN", cs.drop 3)
  else if ("Infinity".toList).isPrefixOf cs then some ("Infinity", cs.drop 8)
  else if ("-Infinity".toList).isPrefixOf cs then some ("-Infinity", cs.drop 9)
  else
    let (sgn, cs1) :=
      match cs with
      | '-' :: rest => ("-", rest)
      | _ => ("", cs)
    let core : Option (String × List Char) :=
      match cs1 with
      | '0' :: rest => some ("0", rest)
      | c :: _ =>
        if c.isDigit then
          let (ds, rest) := digitSpan cs1
          some (String.mk ds, rest)
        else none
      | [] => none
    match core with
    | none => none
    | some (ip, rest1) =>
      let (fp, rest2) :=
        match rest1 with
        | '.' :: r =>
          let (ds, r2) := digitSpan r
          if ds.isEmpty then ("", rest1) else ("." ++ String.mk ds, r2)
        | _ => ("", rest1)
      let (ep, rest3) :=
        match rest2 with
        | e :: r =>
          if e == 'e' || e == 'E' then
            let (sgn2, r2) :=
              match r with
              | '+' :: rr => ("+", rr)
              | '-' :: rr => ("-", rr)
              | _ => ("", r)
            let (ds, r3) := digitSpan r2
            if ds.isEmpty then ("", rest2)
            else (String.mk [e] ++ sgn2 ++ String.mk ds, r3)
          else ("", rest2)
        | _ => ("", rest2)
      some (sgn ++ ip ++ fp ++ ep, rest3)

mutual

/-- Parse one JSON value (after skipping leading whitespace), mirroring the
grammar accepted by Python's `json.loads`.  Fuel-indexed; the fuel chosen in
`json_loads` is generous enough for every input. -/
def parseVal : Nat → List Char → Option (Json × List Char)
  | 0, _ => none
  | f + 1, cs =>
    match skipWs cs with
    | [] => none
    | c :: rest =>
      if c == '"' then
        (parseStrBody (rest.length + 1) rest).map (fun p => (Json.str p.1, p.2))
      else if c == lbrace then parseObjBody f (skipWs rest)
      else if c == '[' then parseArrBody f (skipWs rest)
      else if ("null".toList).isPrefixOf (c :: rest) then
        some (Json.null, (c :: rest).drop 4)
      else if ("true".toList).isPrefixOf (c :: rest) then
        some (Json.bool true, (c :: rest).drop 4)
      else if ("false".toList).isPrefixOf (c :: rest) then
        some (Json.bool false, (c :: rest).drop 5)
      else (parseNum (c :: rest)).map (fun p => (Json.num p.1, p.2))

/-- Parse an array body after the opening bracket (whitespace skipped). -/
def parseArrBody : Nat → List Char → Option (Json × List Char)
  | 0, _ => none
  | f + 1, cs =>
    match cs with
    | c :: rest => if c == ']' then some (Json.arr [], rest) else parseArrElems f cs []
    | [] => none

/-- Parse the comma-separated elements of a non-empty array. -/
def parseArrElems : Nat → List Char → List Json → Option (Json × List Char)
  | 0, _, _ => none
  | f + 1, cs, acc =>
    match parseVal f cs with
    | none => none
    | some (v, rest) =>
      match skipWs rest with
      | c :: rest2 =>
        if c == ',' then parseArrElems f rest2 (acc ++ [v])
        else if c == ']' then some (Json.arr (acc ++ [v]), rest2)
        else none
      | [] => none

/-- Parse an object body after the opening brace (whitespace skipped). -/
def parseObjBody : Nat → List Char → Option (Json × List Char)
  | 0, _ => none
  | f + 1, cs =>
    match cs with
    | c :: _ => if c == rbrace then some (Json.obj [], cs.tail) else parseObjMembers f cs []
    | [] => none

/-- Parse the members of a non-empty object.  Duplicate keys follow Python
dict semantics: the later value wins at the first key position. -/
def parseObjMembers : Nat → List Char → List (String × Json) → Option (Json × List Char)
  | 0, _, _ => none
  | f + 1, cs, acc =>
    match cs with
    | c :: rest =>
      if c == '"' then
        match parseStrBody (rest.length + 1) rest with
        | none => none
        | some (k, rest2) =>
          match skipWs rest2 with
          | c2 :: rest3 =>
            if c2 == ':' then
              match parseVal f rest3 with
              | none => none
              | some (v, rest4) =>
                match skipWs rest4 with
                | c3 :: rest5 =>
                  if c3 == ',' then parseObjMembers f (skipWs rest5) (pySet acc k v)
                  else if c3 == rbrace then some (Json.obj (pySet acc k v), rest5)
                  else none
                | [] => none
            else none
          | [] => none
      else none
    | [] => none

end

/-- Model of Python's `json.loads`: parse one value, then require only
trailing whitespace. -/
def json_loads (s : String) : Option Json :=
  let cs := s.toList
  match parseVal (3 * cs.length + 8) cs with
  | some (v, rest) => if (skipWs rest).isEmpty then some v else none
  | none => none

/-- Index of the first occurrence of `pat` in `cs` (Python `str.find` for a
substring), `none` when absent. -/
def strFindIdx (cs pat : List Char) : Option Nat :=
  if pat.isPrefixOf cs then some 0
  else
    match cs with
    | [] => none
    | _ :: rest => (strFindIdx rest pat).map (fun n => n + 1)

/-- Index of the first occurrence of character `c` (Python `str.find`). -/
def firstIdxOf (cs : List Char) (c : Char) : Option Nat :=
  match cs with
  | [] => none
  | x :: rest => if x == c then some 0 else (firstIdxOf rest c).map (fun n => n + 1)

/-- Index of the last occurrence of character `c` (Python `str.rfind`). -/
def lastIdxOf (cs : List Char) (c : Char) : Option Nat :=
  match cs with
  | [] => none
  | x :: rest =>
    match lastIdxOf rest c with
    | some n => some (n + 1)
    | none => if x == c then some 0 else none

/-- Captures, in document order, of Python's
`re.findall(r"` three backticks `(?:json)?\s*([\s\S]*?)` three backticks `", text)`
from `_extract_json_from_text`: successive fence markers are paired up
non-greedily; an immediately following literal `json` tag is consumed by the
`(?:json)?` group.  The leading `\s*` of the pattern is immaterial because the
caller strips every capture before use, so captures here keep their leading
whitespace. -/
def fenceRegions : Nat → List Char → List (List Char)
  | 0, _ => []
  | f + 1, cs =>
    match strFindIdx cs ("```".toList) with
    | none => []
    | some i =>
      let afterOpen := cs.drop (i + 3)
      let body := if ("json".toList).isPrefixOf afterOpen then afterOpen.drop 4 else afterOpen
      match strFindIdx body ("```".toList) with
      | none => []
      | some j => body.take j :: fenceRegions f (body.drop (j + 3))

/-- Whitespace characters removed by Python's `str.strip()` (the ASCII ones;
the texts under verification contain no Unicode spaces). -/
def isPyStripWs (c : Char) : Bool :=
  c == ' ' || c == '\t' || c == '\n' || c == '\r' ||
    c == Char.ofNat 11 || c == Char.ofNat 12

/-- Python `str.strip()`. -/
def pyStrip (s : String) : String :=
  String.mk (((s.toList.dropWhile isPyStripWs).reverse.dropWhile isPyStripWs).reverse)

/-- Python `str.lower()` on ASCII letters (the submit keywords are ASCII). -/
def pyLower (s : String) : String :=
  String.mk (s.toList.map Char.toLower)

/-- The loop over fenced-region captures in `_extract_json_from_text`: return
the first stripped capture that `json.loads` accepts. -/
def tryRegions : List (List Char) → Option String
  | [] => none
  | r :: rs =>
    let cand := pyStrip (String.mk r)
    if (json_loads cand).isSome then some cand else tryRegions rs

/-- The bracket fallback of `_extract_json_from_text`: the span from the
first opening brace to the last closing brace, under the source's
`start >= 0 and end > start` guard. -/
def braceSpan (cs : List Char) : Option (List Char) :=
  match firstIdxOf cs lbrace, lastIdxOf cs rbrace with
  | some s, some e => if s < e + 1 then some ((cs.drop s).take (e + 1 - s)) else none
  | _, _ => none

/-- Model of `ProjectChatChain._extract_json_from_text`: first fenced
code-block region whose stripped content parses as JSON; otherwise the
first-brace-to-last-brace span when it parses; otherwise the input text
unchanged. -/
def extract_json_from_text (text : String) : String :=
  let cs := text.toList
  match tryRegions (fenceRegions (cs.length + 1) cs) with
  | some s => s
  | none =>
    match braceSpan cs with
    | some span =>
      if (json_loads (String.mk span)).isSome then String.mk span else text
    | none => text

/-- The `SUBMIT_KEYWORDS` list of `llm_chain.py`. -/
def SUBMIT_KEYWORDS : List String :=
  ["#submit", "#generate", "#selesai",
   "#save", "#simpan", "#finish",
   "#done", "#complete", "#end",
   "#kirim", "#buat", "#create"]

/-- The trigger check of `process_message`:
`any(keyword in message.lower() for keyword in SUBMIT_KEYWORDS)`. -/
def is_submit (message : String) : Bool :=
  SUBMIT_KEYWORDS.any (fun k => (strFindIdx (pyLower message).toList k.toList).isSome)

/-- Error message raised when the record has no top-level project object. -/
def ERR_MISSING_PROJECT : String :=
  "Project data must contain a \x27project\x27 object"

/-- Error message raised when the record has neither `talents` nor `talent`. -/
def ERR_MISSING_TALENTS : String :=
  "Project data must contain a \x27talents\x27 array"

/-- Error message raised when the `talents` array is empty. -/
def ERR_EMPTY_TALENTS : String :=
  "Project must have at least one talent"

/-- Tail of `_validate_project_data` after the talent/talents key fixing: the
`isinstance` wrap of a non-list `talents` value followed by the final
truthiness check `if not data["talents"]`. -/
def validateTail (d : List (String × Json)) : Except String (List (String × Json)) :=
  let tv := (pyGet d "talents").getD Json.null
  let d2 := if isArr tv = false then pySet d "talents" (Json.arr [tv]) else d
  let tv2 := (pyGet d2 "talents").getD Json.null
  if pyFalsy tv2 = true then Except.error ERR_EMPTY_TALENTS else Except.ok d2

/-- Model of `ProjectChatChain._validate_project_data` on a dict record.  The
Python function mutates `data` in place and returns `None`; the model returns
the mutated record (or the message of the `ValueError` raised). -/
def validate_project_data (data : List (String × Json)) :
    Except String (List (String × Json)) :=
  if pyContains data "project" = false then Except.error ERR_MISSING_PROJECT
  else if pyContains data "talent" = true ∧ pyContains data "talents" = false then
    validateTail
      (pyDel (pySet data "talents" (Json.arr [(pyGet data "talent").getD Json.null])) "talent")
  else if pyContains data "talents" = false then Except.error ERR_MISSING_TALENTS
  else validateTail data

/-- Lift of `_validate_project_data` to an arbitrary parsed JSON value.  On
every non-dict input the Python function raises an exception (a `TypeError`
from `in` or indexing on numbers and strings, or one of its own `ValueError`s
on lists), and `process_message` catches all of these alike, so the model maps
every non-object to an error. -/
def validate_json : Json → Except String Json
  | .obj kvs => (validate_project_data kvs).map Json.obj
  | _ => Except.error "TypeError"

/-- Speaker role of a conversation turn. -/
inductive Role where
  | user : Role
  | assistant : Role
deriving Repr, DecidableEq

/-- One turn of the LangChain `ConversationBufferMemory` buffer. -/
structure Turn where
  role : Role
  content : String
deriving Repr, DecidableEq

/-- The fixed confirmation message returned on the finalize-success path. -/
def CONFIRM_MSG : String :=
  "Baik, saya telah menyimpan detail project Anda. Apakah ada yang bisa saya bantu lagi?"

/-- The fixed apologetic message returned when no structured record could be
produced for a triggered message. -/
def APOLOGY_MSG : String :=
  "Maaf, saya gagal membuat data project. Mohon berikan informasi lebih lengkap tentang project Anda dan gunakan #submit untuk menyimpan."

/-- Result dict returned by `process_message`
(`response` / `parsed_data` / `is_final`). -/
structure PMResult where
  response : String
  parsed_data : Option Json
  is_final : Bool
deriving Repr

/-- Observable outcome of one `process_message` call: either a returned
result dict, or the exception re-raised to the caller by the outer handler
(`raise Exception("Error processing message: ...")`). -/
inductive PMOutcome where
  | ok : PMResult → PMOutcome
  | genError : PMOutcome
deriving Repr

/-- State after one `process_message` call: the outcome, the conversation
memory buffer afterwards, and the number of generation-backend calls issued
(`chain.apredict` and `llm.predict` both count). -/
structure PMStep where
  outcome : PMOutcome
  memory : List Turn
  calls : Nat
deriving Repr

/-- Model of `ProjectChatChain.process_message`.

Parameters standing for the two external collaborators:
* `parserParse` — the LangChain `JsonOutputParser.parse` used for the primary
  extraction attempt (`self.parser.parse(response)`); `none` models the
  `OutputParserException` it raises when it finds no JSON;
* `backend` — the generation backend, consulted once per generation call in
  order (`backend 0` is `chain.apredict`, `backend 1` the escalation
  `llm.predict`); `none` models a raised backend error.

The LangChain `LLMChain` saves the `(input, raw response)` pair into
`ConversationBufferMemory` exactly when `apredict` succeeds, before
`process_message` inspects the trigger, so every successful generation
appends the user turn and the raw reply — never the returned
`response` field of the result dict.  The `session_id` argument is unused by
the source, as here. -/
def process_message (parserParse : String → Option Json)
    (backend : Nat → Option String) (message : String) (sessionId : String)
    (memory : List Turn) : PMStep :=
  let trig := is_submit message
  match backend 0 with
  | none => ⟨PMOutcome.genError, memory, 1⟩
  | some response =>
    let mem1 := memory ++ [⟨Role.user, message⟩, ⟨Role.assistant, response⟩]
    if trig then
      match parserParse response with
      | some parsed => ⟨PMOutcome.ok ⟨CONFIRM_MSG, some parsed, true⟩, mem1, 1⟩
      | none =>
        match backend 1 with
        | none => ⟨PMOutcome.ok ⟨APOLOGY_MSG, none, false⟩, mem1, 2⟩
        | some completion =>
          match json_loads (extract_json_from_text completion) with
          | none => ⟨PMOutcome.ok ⟨APOLOGY_MSG, none, false⟩, mem1, 2⟩
          | some pd =>
            match validate_json pd with
            | Except.error _ => ⟨PMOutcome.ok ⟨APOLOGY_MSG, none, false⟩, mem1, 2⟩
            | Except.ok v => ⟨PMOutcome.ok ⟨CONFIRM_MSG, some v, true⟩, mem1, 2⟩
    else ⟨PMOutcome.ok ⟨response, none, false⟩, mem1, 1⟩

/-- The conversation memory a request for a given session works against.
`ProjectChatChain` holds a single `ConversationBufferMemory` that is not
keyed by session: `app.state.chat_chain` is one shared instance and the
`/chat` handler reads `chat_chain.memory` for whichever `session_id` the
request carries, so every session observes the same buffer. -/
def observed_memory (memory : List Turn) (sessionId : String) : List Turn :=
  memory

/-- The talent-array fixup the `/chat` handler of `app.py` applies to
`result["parsed_data"]` before persisting it (the
`"talent" in data and "talents" not in data` / `isinstance` rewriting). -/
def app_fix_talents (kvs : List (String × Json)) : List (String × Json) :=
  if pyContains kvs "talent" = true ∧ pyContains kvs "talents" = false then
    pyDel (pySet kvs "talents" (Json.arr [(pyGet kvs "talent").getD Json.null])) "talent"
  else if isArr ((pyGet kvs "talents").getD (Json.arr [])) = false then
    pySet kvs "talents" (Json.arr [(pyGet kvs "talents").getD Json.null])
  else kvs

/-- Model of the external LangChain `JsonOutputParser.parse` collaborator,
used only to instantiate the `parserParse` parameter in concrete runs: it
pulls a JSON object out of markdown-fenced or plain text and parses it
strictly, performing no schema validation (the `schema=` keyword passed to
`JsonOutputParser` in `llm_chain.py` is ignored by the library). -/
def json_markdown_parse (s : String) : Option Json :=
  json_loads (extract_json_from_text s)

theorem pyGet_cons (k0 : String) (v0 : Json) (rest : List (String × Json)) (k : String) :
    pyGet ((k0, v0) :: rest) k = if k0 == k then some v0 else pyGet rest k := by
  by_cases h : (k0 == k) = true
  · simp [pyGet, List.find?_cons_of_pos, h]
  · rw [if_neg (by simp_all)]
    simp only [pyGet]
    rw [List.find?_cons_of_neg _ (by simpa using h)]

theorem pyContains_cons (k0 : String) (v0 : Json) (rest : List (String × Json)) (k : String) :
    pyContains ((k0, v0) :: rest) k = ((k0 == k) || pyContains rest k) := by
  simp [pyContains]

theorem pyDel_cons (k0 : String) (v0 : Json) (rest : List (String × Json)) (k : String) :
    pyDel ((k0, v0) :: rest) k =
      if k0 == k then pyDel rest k else (k0, v0) :: pyDel rest k := by
  by_cases h : (k0 == k) = true
  · simp [pyDel, List.filter_cons, h]
  · simp only [pyDel, List.filter_cons]
    simp_all

theorem pyGet_pySet_self (kvs : List (String × Json)) (k : String) (v : Json) :
    pyGet (pySet kvs k v) k = some v := by
  induction kvs with
  | nil => simp [pySet, pyGet_cons]
  | cons p rest ih =>
    rcases p with ⟨k', v'⟩
    by_cases h : (k' == k) = true
    · rw [pySet, if_pos h, pyGet_cons]
      simp
    · rw [pySet, if_neg (by simp_all), pyGet_cons, if_neg (by simp_all)]
      exact ih

theorem pyGet_pyDel_ne (kvs : List (String × Json)) (k k' : String) (h : ¬ k = k') :
    pyGet (pyDel kvs k') k = pyGet kvs k := by
  induction kvs with
  | nil => rfl
  | cons p rest ih =>
    rcases p with ⟨k0, v0⟩
    by_cases h0 : (k0 == k') = true
    · have hk : (k0 == k) = false := by
        simp only [beq_iff_eq] at h0
        subst h0
        simp only [beq_eq_false_iff_ne, ne_eq]
        exact fun hc => h hc.symm
      rw [pyDel_cons, if_pos h0, pyGet_cons, if_neg (by simp [hk])]
      exact ih
    · rw [pyDel_cons, if_neg (by simp_all), pyGet_cons, pyGet_cons]
      by_cases hk : (k0 == k) = true
      · rw [if_pos hk, if_pos hk]
      · rw [if_neg (by simp_all), if_neg (by simp_all)]
        exact ih

theorem pyContains_pyDel_self (kvs : List (String × Json)) (k : String) :
    pyContains (pyDel kvs k) k = false := by
  induction kvs with
  | nil => rfl
  | cons p rest ih =>
    rcases p with ⟨k0, v0⟩
    by_cases h0 : (k0 == k) = true
    · rw [pyDel_cons, if_pos h0]
      exact ih
    · rw [pyDel_cons, if_neg (by simp_all), pyContains_cons]
      simp_all

theorem pyContains_of_pyGet_some (kvs : List (String × Json)) (k : String) (v : Json)
    (h : pyGet kvs k = some v) : pyContains kvs k = true := by
  induction kvs with
  | nil => simp [pyGet] at h
  | cons p rest ih =>
    rcases p with ⟨k0, v0⟩
    rw [pyGet_cons] at h
    rw [pyContains_cons]
    by_cases h0 : (k0 == k) = true
    · simp [h0]
    · rw [if_neg (by simp_all)] at h
      simp_all

theorem pm_memory_of_gen_success (parserParse : String → Option Json)
    (backend : Nat → Option String) (message sid : String) (mem : List Turn) (r : String)
    (h0 : backend 0 = some r) :
    (process_message parserParse backend message sid mem).memory =
      mem ++ [⟨Role.user, message⟩, ⟨Role.assistant, r⟩] := by
  simp only [process_message, h0]
  split
  · split
    · rfl
    · split
      · rfl
      · split
        · rfl
        · split <;> rfl
  · rfl

theorem pm_outcome_ok_of_gen_success (parserParse : String → Option Json)
    (backend : Nat → Option String) (message sid : String) (mem : List Turn) (r : String)
    (h0 : backend 0 = some r) :
    ∃ res, (process_message parserParse backend message sid mem).outcome =
      PMOutcome.ok res := by
  simp only [process_message, h0]
  split
  · split
    · exact ⟨_, rfl⟩
    · split
      · exact ⟨_, rfl⟩
      · split
        · exact ⟨_, rfl⟩
        · split
          · exact ⟨_, rfl⟩
          · exact ⟨_, rfl⟩
  · exact ⟨_, rfl⟩

/-- C1: for a triggered message processed against a backend whose replies
never contain extractable JSON — the primary parser rejects the first reply
and the source's own extractor finds no JSON in the escalation reply —
`process_message` issues exactly 2 generation calls (1 primary +
1 escalation), and returns the fixed apologetic conversational response with
`parsed_data = none` and `is_final = false`; no third generation round
exists in the model. -/
theorem claim_C1_escalation_bound (parserParse : String → Option Json)
    (backend : Nat → Option String) (message sid : String) (mem : List Turn)
    (r0 r1 : String)
    (htrig : is_submit message = true)
    (h0 : backend 0 = some r0) (h1 : backend 1 = some r1)
    (hp : parserParse r0 = none)
    (he : json_loads (extract_json_from_text r1) = none) :
    (process_message parserParse backend message sid mem).calls = 2 ∧
      (process_message parserParse backend message sid mem).outcome =
        PMOutcome.ok ⟨APOLOGY_MSG, none, false⟩ := by
  simp [process_message, h0, htrig, hp, h1, he]

/-- Concrete run of the C1 escalation bound: backend always replies with
plain prose, message contains the submit keyword. -/
theorem claim_C1_escalation_bound_witness :
    (process_message json_markdown_parse (fun _ => some "tidak ada data")
        "#submit" "s1" []).calls = 2 ∧
      (process_message json_markdown_parse (fun _ => some "tidak ada data")
        "#submit" "s1" []).outcome = PMOutcome.ok ⟨APOLOGY_MSG, none, false⟩ :=
  claim_C1_escalation_bound json_markdown_parse (fun _ => some "tidak ada data")
    "#submit" "s1" [] "tidak ada data" "tidak ada data"
    (by decide) rfl rfl (by rfl) (by rfl)

/-- C3 is refuted: the conversation memory is not keyed by session.
Processing a message for session `A` changes the memory observed by the
distinct session `B` (both sessions observe the single shared
`ConversationBufferMemory` buffer). -/
theorem claim_C3_counterexample :
    observed_memory
        (process_message json_markdown_parse (fun _ => some "Halo!") "hai" "A" []).memory
        "B" ≠
      observed_memory [] "B" := by
  decide

/-- C3 amended: conversation memory is a single process-wide buffer that
`process_message` mutates while ignoring its `session_id` argument, so after
any successfully generated reply every session — in particular any second,
distinct session — observes the same buffer extended with the new user and
assistant turns. -/
theorem claim_C3_amended (parserParse : String → Option Json)
    (backend : Nat → Option String) (message sidA sidB : String) (mem : List Turn)
    (r : String) (h0 : backend 0 = some r) :
    observed_memory (process_message parserParse backend message sidA mem).memory sidB =
      mem ++ [⟨Role.user, message⟩, ⟨Role.assistant, r⟩] :=
  pm_memory_of_gen_success parserParse backend message sidA mem r h0

/-- Concrete run of the amended C3 statement with two distinct sessions. -/
theorem claim_C3_amended_witness :
    observed_memory
        (process_message json_markdown_parse (fun _ => some "Halo!") "hai" "A" []).memory
        "B" =
      [⟨Role.user, "hai"⟩, ⟨Role.assistant, "Halo!"⟩] :=
  claim_C3_amended json_markdown_parse (fun _ => some "Halo!") "hai" "A" "B" [] "Halo!" rfl

/-- C4: when the lowercased message contains no submit keyword as a
substring, `process_message` returns the raw generated text with
`parsed_data = none` and `is_final = false` after a single generation call,
whatever the backend returned. -/
theorem claim_C4_nontrigger_passthrough (parserParse : String → Option Json)
    (backend : Nat → Option String) (message sid : String) (mem : List Turn)
    (r : String)
    (hkw : ∀ k ∈ SUBMIT_KEYWORDS, strFindIdx ((pyLower message).toList) k.toList = none)
    (h0 : backend 0 = some r) :
    process_message parserParse backend message sid mem =
      ⟨PMOutcome.ok ⟨r, none, false⟩,
        mem ++ [⟨Role.user, message⟩, ⟨Role.assistant, r⟩], 1⟩ := by
  have htrig : is_submit message = false := by
    unfold is_submit
    rw [List.any_eq_false]
    intro k hk
    rw [hkw k hk]
    simp
  simp [process_message, h0, htrig]

/-- Concrete run of C4: the backend reply even contains valid JSON and a
trigger word, yet the result is the raw reply, non-final, with no record. -/
theorem claim_C4_nontrigger_passthrough_witness :
    process_message json_markdown_parse
        (fun _ => some "#submit \x7b\"a\": 1\x7d") "saya mau aplikasi" "s" [] =
      ⟨PMOutcome.ok ⟨"#submit \x7b\"a\": 1\x7d", none, false⟩,
        [⟨Role.user, "saya mau aplikasi"⟩,
         ⟨Role.assistant, "#submit \x7b\"a\": 1\x7d"⟩], 1⟩ :=
  claim_C4_nontrigger_passthrough json_markdown_parse
    (fun _ => some "#submit \x7b\"a\": 1\x7d") "saya mau aplikasi" "s" []
    "#submit \x7b\"a\": 1\x7d" (by decide) rfl

/-- C8 is refuted: on the finalize-success path the assistant turn appended
to memory is the raw backend reply, not the returned fixed confirmation
message.  Here the reply is an empty JSON object: the result carries
`CONFIRM_MSG` while memory records the raw reply, and the two differ. -/
theorem claim_C8_counterexample :
    ((process_message json_markdown_parse (fun _ => some "\x7b\x7d") "#save" "s" []).outcome =
      PMOutcome.ok ⟨CONFIRM_MSG, some (Json.obj []), true⟩) ∧
    (process_message json_markdown_parse (fun _ => some "\x7b\x7d") "#save" "s" []).memory =
      [⟨Role.user, "#save"⟩, ⟨Role.assistant, "\x7b\x7d"⟩] ∧
    ("\x7b\x7d" : String) ≠ CONFIRM_MSG :=
  ⟨rfl, rfl, by decide⟩

/-- C8 amended: the assistant turn appended to memory is always the raw
primary generation text (escalation/repair outputs are never appended), and
it equals the returned `response` field exactly on the non-triggered path;
on finalize paths the returned text is the fixed confirmation or apology
while memory keeps the raw reply. -/
theorem claim_C8_amended (parserParse : String → Option Json)
    (backend : Nat → Option String) (message sid : String) (mem : List Turn)
    (r : String) (h0 : backend 0 = some r) :
    (process_message parserParse backend message sid mem).memory =
      mem ++ [⟨Role.user, message⟩, ⟨Role.assistant, r⟩] ∧
    (is_submit message = false →
      (process_message parserParse backend message sid mem).outcome =
        PMOutcome.ok ⟨r, none, false⟩) := by
  refine ⟨pm_memory_of_gen_success parserParse backend message sid mem r h0, ?_⟩
  intro htrig
  simp [process_message, h0, htrig]

/-- Concrete run of the amended C8 statement on a non-triggered message. -/
theorem claim_C8_amended_witness :
    (process_message json_markdown_parse (fun _ => some "Baik!") "halo" "s" []).memory =
      [⟨Role.user, "halo"⟩, ⟨Role.assistant, "Baik!"⟩] ∧
    (is_submit "halo" = false →
      (process_message json_markdown_parse (fun _ => some "Baik!") "halo" "s" []).outcome =
        PMOutcome.ok ⟨"Baik!", none, false⟩) :=
  claim_C8_amended json_markdown_parse (fun _ => some "Baik!") "halo" "s" [] "Baik!" rfl

/-- C9: a failing primary generation call surfaces as an error to the caller
with the conversation memory unchanged and no further backend call, while
after a successful primary call — whatever extraction or normalization then
does — the outcome is always a returned result dict, never a propagated
error. -/
theorem claim_C9_failure_semantics (parserParse : String → Option Json)
    (backend : Nat → Option String) (message sid : String) (mem : List Turn) :
    (backend 0 = none →
      process_message parserParse backend message sid mem =
        ⟨PMOutcome.genError, mem, 1⟩) ∧
    (∀ r, backend 0 = some r →
      ∃ res, (process_message parserParse backend message sid mem).outcome =
        PMOutcome.ok res) := by
  constructor
  · intro h
    simp [process_message, h]
  · intro r h
    exact pm_outcome_ok_of_gen_success parserParse backend message sid mem r h

/-- Concrete runs of C9: a failing backend propagates an error and leaves
memory empty; a triggered message whose replies contain no JSON still ends
in a returned (apologetic) result. -/
theorem claim_C9_failure_semantics_witness :
    (process_message json_markdown_parse (fun _ => none) "#submit" "s" [] =
      ⟨PMOutcome.genError, [], 1⟩) ∧
    (∃ res, (process_message json_markdown_parse (fun _ => some "bukan data") "#submit" "s" []).outcome =
      PMOutcome.ok res) :=
  ⟨(claim_C9_failure_semantics json_markdown_parse (fun _ => none) "#submit" "s" []).1 rfl,
   (claim_C9_failure_semantics json_markdown_parse (fun _ => some "bukan data") "#submit" "s" []).2
     "bukan data" rfl⟩

/-- C10: a triggered message whose primary reply already parses as JSON is
returned as final without ever reaching the normalizer: the record here is
the empty object, which lacks both the `project` and the `talents` key and
which `_validate_project_data` would reject outright. -/
theorem claim_C10_unvalidated_final :
    process_message json_markdown_parse (fun _ => some "\x7b\x7d") "#submit" "s" [] =
      ⟨PMOutcome.ok ⟨CONFIRM_MSG, some (Json.obj []), true⟩,
        [⟨Role.user, "#submit"⟩, ⟨Role.assistant, "\x7b\x7d"⟩], 1⟩ ∧
    pyContains ([] : List (String × Json)) "project" = false ∧
    pyContains ([] : List (String × Json)) "talents" = false ∧
    validate_project_data [] = Except.error ERR_MISSING_PROJECT :=
  ⟨rfl, rfl, rfl, rfl⟩

theorem tryRegions_eq_find (rs : List (List Char)) :
    tryRegions rs =
      (rs.map (fun r => pyStrip (String.mk r))).find? (fun c => (json_loads c).isSome) := by
  induction rs with
  | nil => rfl
  | cons r rs ih =>
    by_cases h : (json_loads (pyStrip (String.mk r))).isSome = true
    · simp [tryRegions, h, List.find?_cons_of_pos]
    · simp only [tryRegions, h, Bool.false_eq_true, if_false, List.map_cons]
      rw [List.find?_cons_of_neg _ (by simpa using h)]
      exact ih

/-- The extraction algorithm exactly as worded in the spec: (1) scan the
fenced code-block regions in document order and return the first whose
content parses as strict JSON; (2) otherwise take the span from the first
opening brace to the last closing brace of the whole text and return it if
it parses as strict JSON; (3) otherwise return the original input text
unchanged. -/
def extractSpecOrder (text : String) : String :=
  let cs := text.toList
  let regions := (fenceRegions (cs.length + 1) cs).map (fun r => pyStrip (String.mk r))
  match regions.find? (fun c => (json_loads c).isSome) with
  | some c => c
  | none =>
    match braceSpan cs with
    | some span =>
      if (json_loads (String.mk span)).isSome then String.mk span else text
    | none => text

/-- C5: the source's `_extract_json_from_text` coincides, on every input
text, with the spec-ordered description `extractSpecOrder` — first parsing
fenced region in document order, then the first-brace-to-last-brace span,
then the unchanged input. -/
theorem claim_C5_extractor_order (text : String) :
    extract_json_from_text text = extractSpecOrder text := by
  simp only [extract_json_from_text, extractSpecOrder, tryRegions_eq_find]

/-- C6: the four normalizer rules, applied to any record in the source's
order: a record without a project key fails with the missing-project error;
a record with a singular talent key and no talents key gets the value
wrapped into a one-element talents array with the talent key removed; a
non-array talents value is wrapped into a one-element array; a record where
talents ends up absent or empty fails with the missing-talents flavor of
error. -/
theorem claim_C6_normalizer_rules (kvs : List (String × Json)) :
    (pyContains kvs "project" = false →
      validate_project_data kvs = Except.error ERR_MISSING_PROJECT) ∧
    (∀ t, pyContains kvs "project" = true → pyGet kvs "talent" = some t →
      pyContains kvs "talents" = false →
      ∃ d, validate_project_data kvs = Except.ok d ∧
        pyGet d "talents" = some (Json.arr [t]) ∧ pyContains d "talent" = false) ∧
    (∀ v, pyContains kvs "project" = true → pyGet kvs "talents" = some v →
      isArr v = false →
      ∃ d, validate_project_data kvs = Except.ok d ∧
        pyGet d "talents" = some (Json.arr [v])) ∧
    (pyContains kvs "project" = true → pyContains kvs "talent" = false →
      pyContains kvs "talents" = false →
      validate_project_data kvs = Except.error ERR_MISSING_TALENTS) ∧
    (pyContains kvs "project" = true → pyGet kvs "talents" = some (Json.arr []) →
      validate_project_data kvs = Except.error ERR_EMPTY_TALENTS) := by
  refine ⟨?_, ?_, ?_, ?_, ?_⟩
  · intro h
    simp [validate_project_data, h]
  · intro t hp ht hts
    have hct : pyContains kvs "talent" = true := pyContains_of_pyGet_some _ _ _ ht
    have hgd : pyGet (pyDel (pySet kvs "talents" (Json.arr [t])) "talent") "talents" =
        some (Json.arr [t]) := by
      rw [pyGet_pyDel_ne _ _ _ (by decide), pyGet_pySet_self]
    refine ⟨pyDel (pySet kvs "talents" (Json.arr [t])) "talent", ?_, hgd,
      pyContains_pyDel_self _ _⟩
    rw [validate_project_data, if_neg (by simp [hp]), if_pos ⟨hct, hts⟩, ht]
    simp only [Option.getD_some]
    simp [validateTail, hgd, isArr, pyFalsy]
  · intro v hp hv hna
    have hct : pyContains kvs "talents" = true := pyContains_of_pyGet_some _ _ _ hv
    refine ⟨pySet kvs "talents" (Json.arr [v]), ?_, pyGet_pySet_self _ _ _⟩
    rw [validate_project_data, if_neg (by simp [hp]), if_neg (by simp [hct]),
      if_neg (by simp [hct])]
    simp [validateTail, hv, hna, pyGet_pySet_self, pyFalsy]
  · intro hp hnt hnts
    rw [validate_project_data, if_neg (by simp [hp]), if_neg (by simp [hnt]),
      if_pos hnts]
  · intro hp he
    have hct : pyContains kvs "talents" = true := pyContains_of_pyGet_some _ _ _ he
    rw [validate_project_data, if_neg (by simp [hp]), if_neg (by simp [hct]),
      if_neg (by simp [hct])]
    simp [validateTail, he, isArr, pyFalsy]

/-- Concrete records exercising each of the four C6 normalizer rules. -/
theorem claim_C6_normalizer_rules_witness :
    (validate_project_data [("x", Json.null)] = Except.error ERR_MISSING_PROJECT) ∧
    (∃ d, validate_project_data [("project", Json.obj []), ("talent", Json.str "a")] =
        Except.ok d ∧
      pyGet d "talents" = some (Json.arr [Json.str "a"]) ∧ pyContains d "talent" = false) ∧
    (∃ d, validate_project_data [("project", Json.obj []), ("talents", Json.str "t")] =
        Except.ok d ∧
      pyGet d "talents" = some (Json.arr [Json.str "t"])) ∧
    (validate_project_data [("project", Json.obj [])] = Except.error ERR_MISSING_TALENTS) ∧
    (validate_project_data [("project", Json.obj []), ("talents", Json.arr [])] =
      Except.error ERR_EMPTY_TALENTS) :=
  ⟨(claim_C6_normalizer_rules _).1 (by decide),
   (claim_C6_normalizer_rules _).2.1 (Json.str "a") (by decide) (by rfl) (by decide),
   (claim_C6_normalizer_rules _).2.2.1 (Json.str "t") (by decide) (by rfl) (by decide),
   (claim_C6_normalizer_rules _).2.2.2.1 (by decide) (by decide) (by decide),
   (claim_C6_normalizer_rules _).2.2.2.2 (by decide) (by rfl)⟩

/-- C7: for every project value `P` and talent value `T`, normalizing
`(project: P, talent: T)` and normalizing `(project: P, talents: [T])`
produce identical normalized records. -/
theorem claim_C7_normalizer_equivalence (P T : Json) :
    validate_project_data [("project", P), ("talent", T)] =
      validate_project_data [("project", P), ("talents", Json.arr [T])] :=
  rfl

/-- The fenced primary reply used for claim C2: a record conforming to
`PROJECT_SCHEMA` except that it carries a singular `talent` key in place of
the `talents` array. -/
def talentReplyJson : String :=
  "\x7b\"project\": \x7b\"id\": \"p1\", \"title\": \"Toko Online\", \"slug\": \"toko-online\", " ++
  "\"image\": \"img.png\", \"budget\": \x7b\"minimum\": 1000, \"total\": 0, \"from\": 5000\x7d, " ++
  "\"duration\": \x7b\"total\": 30, \"type\": \"day\"\x7d, \"published\": true, " ++
  "\"status\": \"created\", \"fundsStatus\": \"pending\", " ++
  "\"fundsUntil\": \"2024-06-01T00:00:00.000Z\", \"isFixed\": true, \"viewed\": 0, " ++
  "\"createdAt\": \"2024-01-01T00:00:00.000Z\", \"updatedAt\": \"2024-01-01T00:00:00.000Z\"\x7d, " ++
  "\"talent\": \x7b\"id\": \"t1\", \"name\": \"Backend Developer\", \"budget\": 2000, " ++
  "\"experience\": \"entry\", \"payment\": \"fixed\", \"status\": \"open\", " ++
  "\"createdAt\": \"2024-01-01T00:00:00.000Z\", \"updatedAt\": \"2024-01-01T00:00:00.000Z\"\x7d\x7d"

/-- `talentReplyJson` wrapped in a markdown code fence, as the backend's
primary reply in scenario B. -/
def talentReply : String := "```json\n" ++ talentReplyJson ++ "\n```"

/-- The project object of `talentReplyJson` as a parsed value. -/
def talentProjectVal : Json :=
  Json.obj [("id", Json.str "p1"), ("title", Json.str "Toko Online"),
    ("slug", Json.str "toko-online"), ("image", Json.str "img.png"),
    ("budget", Json.obj [("minimum", Json.num "1000"), ("total", Json.num "0"),
      ("from", Json.num "5000")]),
    ("duration", Json.obj [("total", Json.num "30"), ("type", Json.str "day")]),
    ("published", Json.bool true), ("status", Json.str "created"),
    ("fundsStatus", Json.str "pending"),
    ("fundsUntil", Json.str "2024-06-01T00:00:00.000Z"), ("isFixed", Json.bool true),
    ("viewed", Json.num "0"), ("createdAt", Json.str "2024-01-01T00:00:00.000Z"),
    ("updatedAt", Json.str "2024-01-01T00:00:00.000Z")]

/-- The single talent object of `talentReplyJson` as a parsed value. -/
def talentVal : Json :=
  Json.obj [("id", Json.str "t1"), ("name", Json.str "Backend Developer"),
    ("budget", Json.num "2000"), ("experience", Json.str "entry"),
    ("payment", Json.str "fixed"), ("status", Json.str "open"),
    ("createdAt", Json.str "2024-01-01T00:00:00.000Z"),
    ("updatedAt", Json.str "2024-01-01T00:00:00.000Z")]

/-- The parsed form of `talentReplyJson`: a schema-conformant record except
for its singular `talent` key. -/
def talentRecord : List (String × Json) :=
  [("project", talentProjectVal), ("talent", talentVal)]

/-- C2 is refuted at the `process_message` boundary: for a triggered message
whose primary reply is fenced JSON conforming to the schema except for its
singular `talent` key, the returned record still carries the `talent` key
and has no `talents` array — the primary-parse success path returns the
parsed record without normalization. -/
theorem claim_C2_counterexample :
    (process_message json_markdown_parse (fun _ => some talentReply) "#submit" "s" []).outcome =
      PMOutcome.ok ⟨CONFIRM_MSG, some (Json.obj talentRecord), true⟩ ∧
    pyContains talentRecord "talent" = true ∧
    pyContains talentRecord "talents" = false :=
  ⟨rfl, rfl, rfl⟩

/-- C2 amended: on a triggered message whose primary reply parses to a
record with a singular `talent` key and no `talents` key, `process_message`
returns `is_final = true` with that record unnormalized; the `/chat` handler
of `app.py` then rewrites it in place, after which `talents` is the
one-element array holding the talent value and the `talent` key is gone. -/
theorem claim_C2_amended (parserParse : String → Option Json)
    (backend : Nat → Option String) (message sid : String) (mem : List Turn)
    (reply : String) (kvs : List (String × Json)) (t : Json)
    (htrig : is_submit message = true)
    (h0 : backend 0 = some reply)
    (hp : parserParse reply = some (Json.obj kvs))
    (ht : pyGet kvs "talent" = some t)
    (hts : pyContains kvs "talents" = false) :
    (process_message parserParse backend message sid mem).outcome =
      PMOutcome.ok ⟨CONFIRM_MSG, some (Json.obj kvs), true⟩ ∧
    pyGet (app_fix_talents kvs) "talents" = some (Json.arr [t]) ∧
    pyContains (app_fix_talents kvs) "talent" = false := by
  have hct : pyContains kvs "talent" = true := pyContains_of_pyGet_some _ _ _ ht
  refine ⟨?_, ?_, ?_⟩
  · simp [process_message, h0, htrig, hp]
  · rw [app_fix_talents, if_pos ⟨hct, hts⟩, ht]
    simp only [Option.getD_some]
    rw [pyGet_pyDel_ne _ _ _ (by decide), pyGet_pySet_self]
  · rw [app_fix_talents, if_pos ⟨hct, hts⟩]
    exact pyContains_pyDel_self _ _

/-- Concrete run of the amended C2 statement on the schema-conformant fenced
reply with a singular talent. -/
theorem claim_C2_amended_witness :
    (process_message json_markdown_parse (fun _ => some talentReply) "#generate" "s2" []).outcome =
      PMOutcome.ok ⟨CONFIRM_MSG, some (Json.obj talentRecord), true⟩ ∧
    pyGet (app_fix_talents talentRecord) "talents" = some (Json.arr [talentVal]) ∧
    pyContains (app_fix_talents talentRecord) "talent" = false :=
  claim_C2_amended json_markdown_parse (fun _ => some talentReply) "#generate" "s2" []
    talentReply talentRecord talentVal (by decide) rfl (by rfl) (by rfl) (by rfl)
